import Mathlib

/-!
Verification development for the 7h-stock-analyzer repository.

Shallow embedding of the indicator → signal → recommendation pipeline and
the batch market-data acquisition layer, with theorems settling the frozen
claims about the system.  All monetary and indicator arithmetic is embedded
over `ℚ` (the Python code computes with IEEE doubles; every comparison used
by a theorem below is far from representation boundaries, and any exact tie
in Python rounding is noted where relevant).
-/

set_option autoImplicit false
set_option maxRecDepth 40000

namespace StockAnalyzer

/-! ## RecommendationEngine
Embedded from `src/backend/app/modules/recommendation_engine.py`. -/

/-- The five recommendation labels produced by
`RecommendationEngine._score_to_recommendation`. -/
inductive RecLabel
  | strongBuy
  | buy
  | hold
  | sell
  | strongSell
deriving DecidableEq, Repr

/-- `self.thresholds` from `RecommendationEngine.__init__` (lines 18-24):
strong_buy 0.5, buy 0.2, hold -0.2, sell -0.5 (the strong_sell entry -1.0 is
never read by `_score_to_recommendation`, which falls through to the `else`). -/
def threshold_strong_buy : ℚ := 1/2
def threshold_buy : ℚ := 1/5
def threshold_hold : ℚ := -(1/5)
def threshold_sell : ℚ := -(1/2)

/-- `RecommendationEngine._score_to_recommendation` (lines 122-133). -/
def scoreToRecommendation (score : ℚ) : RecLabel :=
  if threshold_strong_buy ≤ score then .strongBuy
  else if threshold_buy ≤ score then .buy
  else if threshold_hold ≤ score then .hold
  else if threshold_sell ≤ score then .sell
  else .strongSell

/-- `self.target_multipliers` from `RecommendationEngine.__init__` (lines 27-33). -/
def targetMultiplier : RecLabel → ℚ
  | .strongBuy => 6/5      -- 1.20
  | .buy => 11/10          -- 1.10
  | .hold => 51/50         -- 1.02
  | .sell => 19/20         -- 0.95
  | .strongSell => 4/5     -- 0.80

/-- `self.stop_loss_percentages` from `RecommendationEngine.__init__` (lines 36-42). -/
def stopLossPercentage : RecLabel → ℚ
  | .strongBuy => 2/25     -- 0.08
  | .buy => 3/50           -- 0.06
  | .hold => 3/200         -- 0.015
  | .sell => 1/25          -- 0.04
  | .strongSell => 3/50    -- 0.06

/-- Python's `round(x, 2)`: round to a whole number of cents.  Python rounds
exact halves to even while `round` here rounds halves up; every concrete
input these theorems evaluate `round2` on is strictly between two half-cent
boundaries, where the two conventions agree. -/
def round2 (x : ℚ) : ℚ := (round (100 * x) : ℤ) / 100

/-- `RecommendationEngine._calculate_target_price` (lines 135-138):
`round(current_price * multiplier, 2)`. -/
def calculateTargetPrice (currentPrice : ℚ) (rec : RecLabel) : ℚ :=
  round2 (currentPrice * targetMultiplier rec)

/-- `RecommendationEngine._calculate_stop_loss` (lines 140-149): below the
current price for buy-side labels, above it for sell-side labels. -/
def calculateStopLoss (currentPrice : ℚ) (rec : RecLabel) : ℚ :=
  if rec = .strongBuy ∨ rec = .buy ∨ rec = .hold then
    round2 (currentPrice * (1 - stopLossPercentage rec))
  else
    round2 (currentPrice * (1 + stopLossPercentage rec))

/-- The target price before the final `round(-, 2)` call of
`_calculate_target_price`: `current_price * multiplier`. -/
def targetPriceUnrounded (currentPrice : ℚ) (rec : RecLabel) : ℚ :=
  currentPrice * targetMultiplier rec

/-- The stop-loss price before the final `round(-, 2)` call of
`_calculate_stop_loss`. -/
def stopLossUnrounded (currentPrice : ℚ) (rec : RecLabel) : ℚ :=
  if rec = .strongBuy ∨ rec = .buy ∨ rec = .hold then
    currentPrice * (1 - stopLossPercentage rec)
  else
    currentPrice * (1 + stopLossPercentage rec)

/-! ## SignalEngine weight tables
Embedded from `SignalEngine.__init__`, `src/backend/app/modules/signal_engine.py`
lines 21-54. -/

/-- `self.indicator_weights` (top-level category weights, lines 22-27). -/
def indicator_weights : List (String × ℚ) :=
  [("trend", 2/5), ("momentum", 3/10), ("volatility", 1/5), ("volume", 1/10)]

/-- `self.trend_weights` (lines 30-35). -/
def trend_weights : List (String × ℚ) :=
  [("EMA_Cross", 3/10), ("SMA_Cross", 3/10), ("MACD_Cross", 1/5), ("ADX_Strength", 1/5)]

/-- `self.momentum_weights` (lines 37-42). -/
def momentum_weights : List (String × ℚ) :=
  [("RSI_Signal", 2/5), ("Stoch_Signal", 3/10), ("ROC_Signal", 1/5), ("CCI_Signal", 1/10)]

/-- `self.volatility_weights` (lines 44-48). -/
def volatility_weights : List (String × ℚ) :=
  [("BB_Position", 1/2), ("ATR_Signal", 3/10), ("HV_Signal", 1/5)]

/-- `self.volume_weights` (lines 50-54). -/
def volume_weights : List (String × ℚ) :=
  [("OBV_Signal", 2/5), ("Volume_Ratio", 3/10), ("PVT_Signal", 3/10)]

/-- Sum of the weights of one weight table. -/
def weightSum (ws : List (String × ℚ)) : ℚ := (ws.map Prod.snd).sum

/-! ## DataLoader cache
Embedded from `src/backend/app/modules/data_loader.py`. -/

/-- One OHLCV dataframe row. -/
structure Bar where
  openPrice : ℚ
  highPrice : ℚ
  lowPrice : ℚ
  closePrice : ℚ
  volume : ℚ
deriving DecidableEq, Repr

/-- `self.cache_ttl_days = 1` from `DataLoader.__init__` (line 27). -/
def cache_ttl_days : ℕ := 1

/-- A cached S3 object for one ticker: its OHLCV rows plus the age of the
object in seconds (`datetime.now(...) - last_modified`).  In the typed
embedding the five required columns always exist, so the column checks of
`_validate_cached_data` are carried by the row type itself. -/
structure CacheObject where
  rows : List Bar
  ageSeconds : ℕ
deriving DecidableEq, Repr

/-- Python `timedelta.days` for a non-negative timedelta: whole days, floored
(`_get_from_cache` line 116 computes `(now - last_modified).days`). -/
def ageDays (ageSeconds : ℕ) : ℕ := ageSeconds / 86400

/-- `DataLoader._validate_cached_data` (lines 205-219): non-empty, required
columns present (always true of typed rows), and `df['Volume'].min() >= 0`. -/
def validateCachedData (rows : List Bar) : Bool :=
  !rows.isEmpty && rows.all (fun b => 0 ≤ b.volume)

/-- `DataLoader._get_from_cache` (lines 108-143): a missing object (404) is a
miss; an object whose age in whole days exceeds `cache_ttl_days` is a miss
("Cache expired"); otherwise the object is loaded and returned when it passes
`_validate_cached_data`, else treated as a miss. -/
def getFromCache (obj : Option CacheObject) : Option (List Bar) :=
  match obj with
  | none => none
  | some o =>
    if ageDays o.ageSeconds > cache_ttl_days then none
    else if validateCachedData o.rows then some o.rows
    else none

/-! ## BatchStockAnalyzer: symbol bookkeeping and batch fetching
Embedded from `src/core/batch_stock_analyzer.py`. -/

/-- Python `str.strip()`: remove leading and trailing whitespace
(character-level embedding; Lean's own `String.trim` is opaque to kernel
reduction, so the same operation is spelled out on the character list). -/
def pyStrip (s : List Char) : List Char :=
  ((s.dropWhile Char.isWhitespace).reverse.dropWhile Char.isWhitespace).reverse

/-- Python `str.upper()` (character-level embedding, ASCII tickers). -/
def pyUpper (s : List Char) : List Char := s.map Char.toUpper

/-- Symbol normalization from `BatchStockAnalyzer.__init__` (line 52):
`[s.upper().strip() for s in symbols if s.strip()]` (whitespace-only entries
are dropped; the rest are uppercased and stripped). -/
def normalizeSymbols (symbols : List String) : List String :=
  (symbols.filter (fun s => pyStrip s.data ≠ [])).map
    (fun s => ⟨pyStrip (pyUpper s.data)⟩)

/-- A per-symbol entry of the `analyze_all` result dictionary: either a
successful analysis payload or an `{'error': ...}` dictionary. -/
inductive AnalysisEntry (α : Type)
  | ok (result : α)
  | err (msg : String)
deriving DecidableEq, Repr

/-- Python `dict` assignment `d[k] = v`: replaces the value in place when the
key exists, otherwise appends the pair (insertion order is preserved). -/
def dictInsert {α : Type} (k : String) (v : α) :
    List (String × α) → List (String × α)
  | [] => [(k, v)]
  | (k₀, v₀) :: rest =>
    if k₀ = k then (k, v) :: rest else (k₀, v₀) :: dictInsert k v rest

/-- `BatchStockAnalyzer.analyze_all` (lines 448-471).  The network-dependent
per-symbol outcomes are parameters: `fetchOk s` is `fetch_batch_data`'s
success flag for `s`, and `analyzeSym s` is what `analyze_symbol s` returns
(`none` models Python `None`; `analyze_symbol` otherwise returns either an
analysis payload or an error dictionary). -/
def analyzeAll {α : Type} (symbols : List String) (fetchOk : String → Bool)
    (analyzeSym : String → Option (AnalysisEntry α)) :
    List (String × AnalysisEntry α) :=
  (normalizeSymbols symbols).foldl
    (fun results symbol =>
      if fetchOk symbol then
        match analyzeSym symbol with
        | some analysis => dictInsert symbol analysis results
        | none => dictInsert symbol (.err "Analysis failed") results
      else dictInsert symbol (.err "Data fetch failed") results)
    []

/-- The entry that the `analyze_all` loop body stores for one symbol. -/
def expectedEntry {α : Type} (fetchOk : String → Bool)
    (analyzeSym : String → Option (AnalysisEntry α)) (s : String) :
    AnalysisEntry α :=
  if fetchOk s then
    match analyzeSym s with
    | some analysis => analysis
    | none => .err "Analysis failed"
  else .err "Data fetch failed"

/-- Whether an entry is a typed error entry. -/
def isErrEntry {α : Type} : AnalysisEntry α → Bool
  | .err _ => true
  | .ok _ => false

/-- Classification of one `yf.download` attempt for a whole batch, as made by
`_fetch_single_batch`'s exception handler (lines 231-265): the download either
returns (per-symbol acceptance by the demultiplexing checks of lines 149-229
is folded into `symbolOk`), or raises with a message matching the rate-limit
keywords, or the authentication keywords, or neither. -/
inductive BatchOutcome
  | ok (symbolOk : String → Bool)
  | rateLimited
  | authFailed
  | otherError

/-- `max_retries = 3` (`_fetch_single_batch`, line 134). -/
def max_retries : ℕ := 3

/-- `self.max_session_resets = 3` (`__init__`, line 59). -/
def max_session_resets : ℕ := 3

/-- `_fallback_individual_downloads` (lines 273-368): every symbol of the
batch is downloaded individually exactly once, in order (the three per-symbol
attempts — standard history, alternate parameters, shorter period — are folded
into the external outcome `indiv`).  Returns the per-symbol results together
with the list of symbols processed individually. -/
def fallbackIndividualDownloads (indiv : String → Bool) (symbols : List String) :
    List (String × Bool) × List String :=
  (symbols.map (fun s => (s, indiv s)), symbols)

/-- `_fetch_single_batch` (lines 131-271), parameterized by the classified
outcome of the download attempt at each retry count.  Returns the per-symbol
success flags together with the list of symbols handed to the
individual-download fallback (`[]` when the fallback was never invoked).
Rate-limit errors retry the same batch until `max_retries` and then fall
through to the generic handler, which marks every symbol failed (lines
236-243 and 266-269) — they never reach the fallback.  Authentication errors
reset the session and retry, falling back to individual downloads when either
ceiling is exhausted (lines 246-264).  `_reset_yfinance_session` is modeled
as succeeding (it returns `False` only when resetting itself raises). -/
def fetchSingleBatch (attempt : ℕ → BatchOutcome) (indiv : String → Bool)
    (symbols : List String) (retryCount : ℕ) (sessionResetAttempts : ℕ) :
    List (String × Bool) × List String :=
  match attempt retryCount with
  | .ok symbolOk => (symbols.map (fun s => (s, symbolOk s)), [])
  | .rateLimited =>
    if h : retryCount < max_retries then
      fetchSingleBatch attempt indiv symbols (retryCount + 1) sessionResetAttempts
    else
      (symbols.map (fun s => (s, false)), [])
  | .authFailed =>
    if sessionResetAttempts < max_session_resets then
      if h : retryCount < max_retries then
        fetchSingleBatch attempt indiv symbols (retryCount + 1)
          (sessionResetAttempts + 1)
      else fallbackIndividualDownloads indiv symbols
    else fallbackIndividualDownloads indiv symbols
  | .otherError => (symbols.map (fun s => (s, false)), [])
termination_by max_retries + 1 - retryCount
decreasing_by
  all_goals simp_wf
  all_goals omega

/-! ## Technical indicator primitives
The repository computes indicators through pandas and the `ta` library;
the definitions below embed those library computations over `ℚ` (pandas
`NaN` becomes `Option.none`; `min_periods` masks are noted where they decide
whether a value exists). -/

/-- `ℚ` image of a natural number, written with `Rat.divInt` so that the
kernel can evaluate it (the `Nat.cast` instance path and the `Rat` arithmetic
of Batteries are `@[irreducible]` or stuck under kernel reduction). -/
def ratOfNat (n : ℕ) : ℚ := Rat.divInt (Int.ofNat n) 1

/-- Binary max on `ℚ` (spelled with `if` so the kernel can evaluate it;
Mathlib's lattice `max` does not reduce). -/
def ratMax (a b : ℚ) : ℚ := if a ≤ b then b else a

/-- Binary min on `ℚ`. -/
def ratMin (a b : ℚ) : ℚ := if a ≤ b then a else b

/-- Absolute value on `ℚ` (spelled with `if`, see `ratMax`). -/
def ratAbs (a : ℚ) : ℚ := if a < 0 then -a else a

/-- pandas `ewm(adjust=False).mean()` recursion after the first observation:
`e_t = α·x_t + (1−α)·e_(t−1)`. -/
def ewmScan (a : ℚ) (prev : ℚ) : List ℚ → List ℚ
  | [] => []
  | x :: xs =>
    let e := a * x + (1 - a) * prev
    e :: ewmScan a e xs

/-- pandas `series.ewm(..., adjust=False).mean()`: the exponential average
seeded at the first observation.  `min_periods` only masks leading outputs;
every theorem below reads values past the mask, with existence guards stated
separately. -/
def ewmSeries (a : ℚ) : List ℚ → List ℚ
  | [] => []
  | x :: xs => x :: ewmScan a x xs

/-- The last `n` elements of a list (a rolling window ending at the last row). -/
def lastN (n : ℕ) (xs : List ℚ) : List ℚ := xs.drop (xs.length - n)

/-- `rolling(n).mean()` at the last row. -/
def rollingMeanLast (n : ℕ) (xs : List ℚ) : ℚ := (lastN n xs).sum / ratOfNat n

/-- `rolling(n).std()**2` at the last row: pandas sample variance (`ddof=1`). -/
def rollingVarLast (n : ℕ) (xs : List ℚ) : ℚ :=
  let w := lastN n xs
  let m := w.sum / ratOfNat n
  (w.map (fun x => (x - m) ^ 2)).sum / (ratOfNat n - 1)

/-- Consecutive differences `close.diff(1)` without the leading NaN. -/
def diffs (xs : List ℚ) : List ℚ := List.zipWith (fun a b => a - b) (xs.drop 1) xs

/-- `ta.trend.SMAIndicator(close, window).sma_indicator()` at the last row:
`rolling(window, min_periods=window).mean()` — present iff the series has at
least `window` rows. -/
def smaLast (window : ℕ) (closes : List ℚ) : Option ℚ :=
  if window ≤ closes.length then some (rollingMeanLast window closes) else none

/-- `ta.trend.EMAIndicator(close, window).ema_indicator()`:
`ewm(span=window, min_periods=window, adjust=False).mean()`, i.e. multiplier
`2/(window+1)`, masked for the first `window−1` rows. -/
def emaSeries (window : ℕ) (xs : List ℚ) : List ℚ :=
  ewmSeries (2 / (ratOfNat window + 1)) xs

/-- Last EMA value; present iff the series has at least `window` rows. -/
def emaLast (window : ℕ) (closes : List ℚ) : Option ℚ :=
  if window ≤ closes.length then (emaSeries window closes).getLast? else none

/-- `ta.trend.MACD(close, 26, 12, 9).macd()`: fast EMA − slow EMA.  The slow
EMA's `min_periods=26` masks the first 25 rows, so the MACD line starts at
row 25 (dropped here so that the signal-line recursion sees exactly the
non-NaN values, as pandas `ewm` does). -/
def macdSeries (closes : List ℚ) : List ℚ :=
  (List.zipWith (fun a b => a - b) (emaSeries 12 closes) (emaSeries 26 closes)).drop 25

/-- Last MACD value; present iff the series has at least 26 rows. -/
def macdLast (closes : List ℚ) : Option ℚ := (macdSeries closes).getLast?

/-- `MACD(...).macd_signal()`: EMA(9) of the (non-NaN) MACD line. -/
def macdSignalSeries (closes : List ℚ) : List ℚ := emaSeries 9 (macdSeries closes)

/-- Last MACD-signal value; the signal's `min_periods=9` needs 9 non-NaN MACD
values, so it exists iff the series has at least 34 rows. -/
def macdSignalLast (closes : List ℚ) : Option ℚ :=
  if 34 ≤ closes.length then (macdSignalSeries closes).getLast? else none

/-- `MACD(...).macd_diff()` (histogram): MACD − signal, present iff both are. -/
def macdHistogramLast (closes : List ℚ) : Option ℚ := do
  let m ← macdLast closes
  let s ← macdSignalLast closes
  pure (m - s)

/-- The per-row RSI values of `ta.momentum.RSIIndicator(close, 14)`: Wilder
smoothing (`ewm(alpha=1/14, adjust=False)`) of the positive and negative parts
of the daily differences, `rs = emaup/emadn`, `rsi = 100 − 100/(1+rs)`.
When `emadn = 0` the float code yields `rs = inf` and `rsi = 100`; when
additionally `emaup = 0`, `rs` is NaN and so is the RSI (`none`). -/
def rsiValues (closes : List ℚ) : List (Option ℚ) :=
  let d := diffs closes
  let aus := ewmSeries (1/14) (d.map (fun x => ratMax x 0))
  let ads := ewmSeries (1/14) (d.map (fun x => ratMax (-x) 0))
  List.zipWith
    (fun au ad =>
      if ad = 0 then (if au = 0 then none else some 100)
      else some (100 - 100 / (1 + au / ad)))
    aus ads

/-- `RSIIndicator(close, 14).rsi()` at the last row; `min_periods=14` over the
difference column means a value exists iff the series has at least 15 rows. -/
def rsiLast (closes : List ℚ) : Option ℚ :=
  if 15 ≤ closes.length then (rsiValues closes).getLastD none else none

/-- `ta.momentum.StochRSIIndicator(close, 14).stochrsi()` at the last row:
`(rsi − rolling14.min rsi) / (rolling14.max rsi − rolling14.min rsi)` — a
value in [0, 1].  `none` models NaN: insufficient data, a NaN RSI inside the
window, or a zero min-max range (0/0). -/
def stochKLast (closes : List ℚ) : Option ℚ :=
  let vals := lastN14Opt (rsiValues closes)
  if vals.length = 14 ∧ vals.all (fun v => v.isSome) then
    match vals.filterMap id with
    | [] => none
    | w :: ws =>
      let mn := ws.foldl ratMin w
      let mx := ws.foldl ratMax w
      let lastRsi := (w :: ws).getLastD 0
      if mx - mn = 0 then none else some ((lastRsi - mn) / (mx - mn))
  else none
where
  /-- last 14 entries of the (optional) RSI column -/
  lastN14Opt (xs : List (Option ℚ)) : List (Option ℚ) := xs.drop (xs.length - 14)

/-- `ta.momentum.ROCIndicator(close, window).roc()` at the last row:
`(close_t / close_(t−window) − 1) * 100`. -/
def rocLast (window : ℕ) (closes : List ℚ) : Option ℚ :=
  if window + 1 ≤ closes.length then
    let cur := closes.getLastD 0
    let prev := closes.getD (closes.length - 1 - window) 0
    some ((cur - prev) / prev * 100)
  else none

/-- Running cumulative sums (`cumsum`). -/
def cumsumFrom (acc : ℚ) : List ℚ → List ℚ
  | [] => []
  | x :: xs => (acc + x) :: cumsumFrom (acc + x) xs

def cumsum (xs : List ℚ) : List ℚ := cumsumFrom 0 xs

/-- `ta.volume.OnBalanceVolumeIndicator`:
`np.where(close < close.shift(1), -volume, volume).cumsum()` (the first
comparison is against NaN, hence false, so the first element adds its
volume). -/
def obvSeries (closes vols : List ℚ) : List ℚ :=
  cumsum <|
    match vols with
    | [] => []
    | v0 :: _ =>
      v0 :: List.zipWith (fun pc v => if pc.2 < pc.1 then -v else v)
        (List.zip closes (closes.drop 1)) (vols.drop 1)

/-- `(volume * close.pct_change()).cumsum()` (`PVT`,
`indicator_engine._compute_volume_indicators` line 183); the leading NaN term
is excluded, as pandas `cumsum` carries it as NaN only at index 0. -/
def pvtSeries (closes vols : List ℚ) : List ℚ :=
  cumsum <|
    List.zipWith (fun pc v => v * ((pc.2 - pc.1) / pc.1))
      (List.zip closes (closes.drop 1)) (vols.drop 1)

/-- `ta.volume.VolumeWeightedAveragePrice(high, low, close, volume, 20)` at
the last row: rolling Σ(typical price · volume) / Σ volume with typical price
`(high+low+close)/3` (stored by the indicator engine as `Volume_SMA_20`). -/
def vwapLast (window : ℕ) (highs lows closes vols : List ℚ) : ℚ :=
  let tps := List.zipWith3 (fun h l c => (h + l + c) / 3) highs lows closes
  (lastN window (List.zipWith (fun tp v => tp * v) tps vols)).sum /
    (lastN window vols).sum

/-- True ranges for `t ≥ 1`:
`max(high−low, |high−close_prev|, |low−close_prev|)` (the row-0 true range is
NaN since there is no previous close). -/
def trSeries (highs lows closes : List ℚ) : List ℚ :=
  List.zipWith
    (fun hl cprev =>
      ratMax (hl.1 - hl.2) (ratMax (ratAbs (hl.1 - cprev)) (ratAbs (hl.2 - cprev))))
    (List.zip (highs.drop 1) (lows.drop 1)) closes

/-- `ta.volatility.AverageTrueRange(..., 14)`: Wilder smoothing
(`ewm(alpha=1/14, adjust=False)`) of the true ranges.  (Older `ta` versions
seed with a 14-bar simple mean and recurse `(13·atr + tr)/14`; on every series
a theorem below evaluates, the true range is constant, where both variants
coincide.) -/
def atrSeries (highs lows closes : List ℚ) : List ℚ :=
  ewmSeries (1/14) (trSeries highs lows closes)

/-- Positive directional movements for `t ≥ 1`:
`+DM = high_t − high_(t−1)` when that exceeds both `low_(t−1) − low_t` and 0. -/
def posDMSeries (highs lows : List ℚ) : List ℚ :=
  List.zipWith
    (fun hp lp =>
      let up := hp.2 - hp.1
      let dn := lp.1 - lp.2
      if up > dn ∧ up > 0 then up else 0)
    (List.zip highs (highs.drop 1)) (List.zip lows (lows.drop 1))

/-- Negative directional movements, mirror of `posDMSeries`. -/
def negDMSeries (highs lows : List ℚ) : List ℚ :=
  List.zipWith
    (fun hp lp =>
      let up := hp.2 - hp.1
      let dn := lp.1 - lp.2
      if dn > up ∧ dn > 0 then dn else 0)
    (List.zip highs (highs.drop 1)) (List.zip lows (lows.drop 1))

/-- Wilder ADX at the last row (`ta.trend.ADXIndicator(..., 14).adx()`):
smoothed +DM/−DM/TR, directional indices `±DI = 100·S(±DM)/S(TR)`,
`DX = 100·|+DI − −DI|/(+DI + −DI)`, and ADX the Wilder smoothing of DX.
`ta`'s implementation seeds its recursions with 14-bar sums and shifts
indices by the window; on every series a theorem below evaluates, TR, +DM and
−DM are constant, every DX equals 100, and all seeding conventions give ADX
exactly 100.  Zero-denominator guards mirror the float code's NaN (mapped to
0, which the `ADX > 25` comparison also treats as false). -/
def adxLast (highs lows closes : List ℚ) : ℚ :=
  let smTR := ewmSeries (1/14) (trSeries highs lows closes)
  let smPDM := ewmSeries (1/14) (posDMSeries highs lows)
  let smNDM := ewmSeries (1/14) (negDMSeries highs lows)
  let dx := List.zipWith3
    (fun tr pd nd =>
      if tr = 0 then 0
      else
        let dip := 100 * pd / tr
        let din := 100 * nd / tr
        if dip + din = 0 then 0 else 100 * ratAbs (dip - din) / (dip + din))
    smTR smPDM smNDM
  (ewmSeries (1/14) dx).getLastD 0

/-! ## SignalEngine: last-row signals of the backend pipeline (C7)
`IndicatorEngine.compute_all_indicators` adds the indicator columns to the
dataframe and `SignalEngine.generate_signals` maps them to per-category
signals and the weighted final score; the definitions below compute each
signal at the last row from the raw bars, composing the embedded indicator
computations with the `np.where` thresholds of
`src/backend/app/modules/signal_engine.py`.  A `none` (pandas NaN) makes both
`np.where` comparisons false, giving the neutral 0 branch. -/

/-- The close/high/low/volume columns of a bar dataframe. -/
def closesOf (bars : List Bar) : List ℚ := bars.map Bar.closePrice
def highsOf (bars : List Bar) : List ℚ := bars.map Bar.highPrice
def lowsOf (bars : List Bar) : List ℚ := bars.map Bar.lowPrice
def volsOf (bars : List Bar) : List ℚ := bars.map Bar.volume

/-- Weight lookup in one of `SignalEngine.__init__`'s weight tables. -/
def weightOf (ws : List (String × ℚ)) (k : String) : ℚ := (ws.lookup k).getD 0

/-- `EMA_Signal` (signal_engine lines 92-100):
`np.where(EMA_12 > EMA_26, 1, -1)` at the last row. -/
def emaSignalLast (bars : List Bar) : ℚ :=
  if (emaSeries 12 (closesOf bars)).getLastD 0 > (emaSeries 26 (closesOf bars)).getLastD 0
  then 1 else -1

/-- `SMA_Signal` (lines 103-111): `np.where(SMA_50 > SMA_200, 1, -1)`. -/
def smaSignalLast (bars : List Bar) : ℚ :=
  if rollingMeanLast 50 (closesOf bars) > rollingMeanLast 200 (closesOf bars)
  then 1 else -1

/-- `MACD_Signal` cross (lines 114-120): `np.where(MACD > MACD_Signal, 1, -1)`
(the comparison uses the original signal-line column before it is
overwritten). -/
def macdCrossSignalLast (bars : List Bar) : ℚ :=
  if (macdSeries (closesOf bars)).getLastD 0 >
      (macdSignalSeries (closesOf bars)).getLastD 0
  then 1 else -1

/-- `ADX_Strength` (lines 123-130): `np.where(ADX > 25, 1, 0)`. -/
def adxStrengthLast (bars : List Bar) : ℚ :=
  if adxLast (highsOf bars) (lowsOf bars) (closesOf bars) > 25 then 1 else 0

/-- `Trend_Signal` (lines 133-138): the `trend_weights` combination. -/
def trendSignalLast (bars : List Bar) : ℚ :=
  emaSignalLast bars * weightOf trend_weights "EMA_Cross" +
  smaSignalLast bars * weightOf trend_weights "SMA_Cross" +
  macdCrossSignalLast bars * weightOf trend_weights "MACD_Cross" +
  adxStrengthLast bars * weightOf trend_weights "ADX_Strength"

/-- `RSI_Signal` (lines 152-161): +1 below 30, −1 above 70, else 0. -/
def rsiSignalLast (bars : List Bar) : ℚ :=
  match rsiLast (closesOf bars) with
  | none => 0
  | some r => if r < 30 then 1 else if r > 70 then -1 else 0

/-- `Stoch_Signal` (lines 164-172): thresholds 20/80 — compared against the
`StochRSIIndicator` column, whose values live in [0, 1]. -/
def stochSignalLast (bars : List Bar) : ℚ :=
  match stochKLast (closesOf bars) with
  | none => 0
  | some k => if k < 20 then 1 else if k > 80 then -1 else 0

/-- `ROC_Signal` (lines 175-179): ±1 beyond ±5. -/
def rocSignalLast (bars : List Bar) : ℚ :=
  match rocLast 10 (closesOf bars) with
  | none => 0
  | some r => if r > 5 then 1 else if r < -5 then -1 else 0

/-- `CCI_Signal` (lines 182-186): the `CCI_20` column is never created —
`IndicatorEngine._compute_momentum_indicators` raises `NameError` at the CCI
computation (`numpy` import commented out at indicator_engine.py line 6, used
at line 132), the exception is caught, and `SignalEngine` takes the
missing-column branch: signal 0 for every row. -/
def cciSignalLast (_bars : List Bar) : ℚ := 0

/-- `Momentum_Signal` (lines 196-201): the `momentum_weights` combination. -/
def momentumSignalLast (bars : List Bar) : ℚ :=
  rsiSignalLast bars * weightOf momentum_weights "RSI_Signal" +
  stochSignalLast bars * weightOf momentum_weights "Stoch_Signal" +
  rocSignalLast bars * weightOf momentum_weights "ROC_Signal" +
  cciSignalLast bars * weightOf momentum_weights "CCI_Signal"

/-- `BB_Signal` (lines 215-218) over the `BB_Position` column
(indicator_engine lines 150-155): with bands `mavg ± 2σ`,
`position < 0.2 ⇔ close − mavg < −1.2σ` and
`position > 0.8 ⇔ close − mavg > 1.2σ`; since `σ = √variance` is
irrational, the embedding uses the equivalent squared comparisons
(`1.2² = 36/25`).  A zero variance makes the position NaN (0/0): then
`close = mavg` and both squared comparisons are false — signal 0, matching
`np.where` on NaN. -/
def bbSignalLast (bars : List Bar) : ℚ :=
  let closes := closesOf bars
  let m := rollingMeanLast 20 closes
  let v := rollingVarLast 20 closes
  let c := closes.getLastD 0
  if c - m < 0 ∧ (c - m) ^ 2 > (36/25) * v then 1
  else if c - m > 0 ∧ (c - m) ^ 2 > (36/25) * v then -1
  else 0

/-- `ATR_Signal` (lines 229-236): 1 when the last ATR exceeds 1.2× its 20-row
rolling mean, else 0. -/
def atrSignalLast (bars : List Bar) : ℚ :=
  let atrs := atrSeries (highsOf bars) (lowsOf bars) (closesOf bars)
  if atrs.getLastD 0 > rollingMeanLast 20 atrs * (6/5) then 1 else 0

/-- `HV_Signal` (lines 239-244): the `HV_20` column is never created
(`NameError` at `np.sqrt`, indicator_engine line 159), so `SignalEngine`
takes the missing-column branch: signal 0. -/
def hvSignalLast (_bars : List Bar) : ℚ := 0

/-- `Volatility_Signal` (lines 247-251): the `volatility_weights` combination. -/
def volatilitySignalLast (bars : List Bar) : ℚ :=
  bbSignalLast bars * weightOf volatility_weights "BB_Position" +
  atrSignalLast bars * weightOf volatility_weights "ATR_Signal" +
  hvSignalLast bars * weightOf volatility_weights "HV_Signal"

/-- `OBV_Signal` (lines 265-268): 1 when OBV exceeds its 20-row mean, else −1. -/
def obvSignalLast (bars : List Bar) : ℚ :=
  let obvs := obvSeries (closesOf bars) (volsOf bars)
  if obvs.getLastD 0 > rollingMeanLast 20 obvs then 1 else -1

/-- `Volume_Signal` (lines 281-286): `Volume_Ratio = Volume / Volume_SMA_20`
where `Volume_SMA_20` is in fact the volume-weighted average *price*
(indicator_engine lines 176-177 and 189); ±1 beyond 2 / below 0.5. -/
def volumeRatioSignalLast (bars : List Bar) : ℚ :=
  let ratio := (volsOf bars).getLastD 0 /
    vwapLast 20 (highsOf bars) (lowsOf bars) (closesOf bars) (volsOf bars)
  if ratio > 2 then 1 else if ratio < 1/2 then -1 else 0

/-- `PVT_Signal` (lines 289-293): 1 when PVT exceeds its 20-row mean, else −1. -/
def pvtSignalLast (bars : List Bar) : ℚ :=
  let pvts := pvtSeries (closesOf bars) (volsOf bars)
  if pvts.getLastD 0 > rollingMeanLast 20 pvts then 1 else -1

/-- `Volume_Signal_Combined` (lines 302-306): the `volume_weights`
combination. -/
def volumeSignalCombinedLast (bars : List Bar) : ℚ :=
  obvSignalLast bars * weightOf volume_weights "OBV_Signal" +
  volumeRatioSignalLast bars * weightOf volume_weights "Volume_Ratio" +
  pvtSignalLast bars * weightOf volume_weights "PVT_Signal"

/-- `Final_Score` (`_aggregate_signals`, lines 320-325): the
`indicator_weights` combination of the four category signals. -/
def finalScoreLast (bars : List Bar) : ℚ :=
  trendSignalLast bars * weightOf indicator_weights "trend" +
  momentumSignalLast bars * weightOf indicator_weights "momentum" +
  volatilitySignalLast bars * weightOf indicator_weights "volatility" +
  volumeSignalCombinedLast bars * weightOf indicator_weights "volume"

/-- `Final_Score_Normalized` (line 328): `np.clip(final_score, -1, 1)`. -/
def finalScoreNormalizedLast (bars : List Bar) : ℚ :=
  if finalScoreLast bars < -1 then -1
  else if finalScoreLast bars > 1 then 1
  else finalScoreLast bars

/-- Pairwise strict increase of a price series, as an executable check. -/
def strictlyIncreasing (xs : List ℚ) : Bool :=
  (List.zip xs (xs.drop 1)).all (fun p => p.1 < p.2)

/-- The 260-bar series of C7's example: closes strictly increasing by 1 each
day (100, 101, …, 359), flat bars (open = high = low = close, a valid
degenerate OHLCV bar), and positive volumes 99 + t. -/
def c7Bars : List Bar :=
  (List.range 260).map (fun t : ℕ =>
    { openPrice := 100 + ratOfNat t, highPrice := 100 + ratOfNat t,
      lowPrice := 100 + ratOfNat t, closePrice := 100 + ratOfNat t,
      volume := 99 + ratOfNat t })

/-! ## BatchStockAnalyzer._calculate_indicators (C6, C8) -/

/-- The scalar part of the indicator dictionary built by
`BatchStockAnalyzer._calculate_indicators` (lines 473-671).  `none` models an
explicit `None` store as well as the `len(series.dropna()) > 0` checks.
Bollinger upper/lower bands, ATR, OBV and the Stochastic oscillator follow the
same guard pattern; `bbMiddle` (`bollinger_mavg`, the 20-row SMA) represents
the 20-row Bollinger guard.  The pattern-detector sub-dictionaries are
separate detectors not read by any claim. -/
structure CoreIndicators where
  macd : Option ℚ
  macdSignal : Option ℚ
  macdHistogram : Option ℚ
  sma20 : Option ℚ
  sma50 : Option ℚ
  sma200 : Option ℚ
  ema12 : Option ℚ
  ema26 : Option ℚ
  rsi : Option ℚ
  bbMiddle : Option ℚ
  currentPrice : ℚ
  priceChange1yPct : ℚ
deriving DecidableEq, Repr

/-- The `Price_Change_1y_Pct` computation (lines 647-659): with ≥ 253 rows the
exact change over the last 252 trading days (`iloc[-253]` vs `iloc[-1]`); with
50–252 rows the change from the earliest row, scaled by `252 / len`; else 0. -/
def priceChange1y (closes : List ℚ) : ℚ :=
  if 253 ≤ closes.length then
    let yearAgoClose := closes.getD (closes.length - 253) 0
    (closes.getLastD 0 - yearAgoClose) / yearAgoClose * 100
  else if 50 ≤ closes.length then
    let earliestClose := closes.getD 0 0
    let annualizedChange := (closes.getLastD 0 - earliestClose) / earliestClose * 100
    annualizedChange * (252 / (closes.length : ℚ))
  else 0

/-- `_calculate_indicators` guards (lines 479-659): each indicator is
computed only when the series is long enough, and stored as `None` otherwise;
`analyze_symbol` guarantees a non-empty series before calling this. -/
def calcIndicators (closes : List ℚ) : CoreIndicators where
  macd := if 26 ≤ closes.length then macdLast closes else none
  macdSignal := if 26 ≤ closes.length then macdSignalLast closes else none
  macdHistogram := if 26 ≤ closes.length then macdHistogramLast closes else none
  sma20 := if 20 ≤ closes.length then smaLast 20 closes else none
  sma50 := if 50 ≤ closes.length then smaLast 50 closes else none
  sma200 := if 200 ≤ closes.length then smaLast 200 closes else none
  ema12 := if 12 ≤ closes.length then emaLast 12 closes else none
  ema26 := if 26 ≤ closes.length then emaLast 26 closes else none
  rsi := rsiLast closes
  bbMiddle := if 20 ≤ closes.length then smaLast 20 closes else none
  currentPrice := closes.getLastD 0
  priceChange1yPct := priceChange1y closes

/-- Modelled from the spec: the percentage-change convention of §4.2,
`(new − old) / old * 100`. -/
def spec_pctChange (oldv newv : ℚ) : ℚ := (newv - oldv) / oldv * 100

/-- Modelled from the spec: the 1-year change of C8 — the exact percentage
change over the last 252 trading days when at least 253 bars exist, otherwise
the percentage change from the earliest available bar scaled by
`252 / available_length`. -/
def spec_oneYearChange (closes : List ℚ) : ℚ :=
  if 253 ≤ closes.length then
    spec_pctChange (closes.getD (closes.length - 253) 0) (closes.getLastD 0)
  else
    spec_pctChange (closes.getD 0 0) (closes.getLastD 0) * (252 / (closes.length : ℚ))

/-! ## RecommendationEngine.generate_recommendations (C10) -/

/-- One row of the scored dataframe as read by
`RecommendationEngine.generate_recommendations`; `none` models a missing
column (`Series.get` with default).  Only the columns the engine reads for
the embedded fields are carried. -/
structure ScoredRow where
  close : Option ℚ                 -- 'Close'
  finalScoreNormalized : Option ℚ  -- 'Final_Score_Normalized'
  trendSignal : Option ℚ           -- 'Trend_Signal'
  momentumSignal : Option ℚ        -- 'Momentum_Signal'
  volatilitySignal : Option ℚ      -- 'Volatility_Signal'
  volumeSignalCombined : Option ℚ  -- 'Volume_Signal_Combined'
  rsi14 : Option ℚ                 -- 'RSI_14'
deriving DecidableEq, Repr

instance : Inhabited ScoredRow := ⟨⟨none, none, none, none, none, none, none⟩⟩

/-- Confidence labels. -/
inductive Confidence
  | low
  | medium
  | high
deriving DecidableEq, Repr

/-- `_calculate_confidence` (lines 151-174).  The consistency branch compares
`1 − std(last 10 scores)` against 0.8 and 0.4; since `std ≥ 0`,
`consistency > 0.8 ⇔ var < 0.04` and `consistency < 0.4 ⇔ var > 0.36`
(sample variance, pandas `ddof=1`) — the embedding uses these square-free
equivalents to stay in `ℚ`.  Rows produced by the signal engine always carry
the score column; the default 0 mirrors the engine's `.get(..., 0)` reads. -/
def calculateConfidence (score : ℚ) (rows : List ScoredRow) : Confidence :=
  let base : Confidence :=
    if 7/10 ≤ |score| then .high
    else if 2/5 ≤ |score| then .medium
    else .low
  if 10 ≤ rows.length then
    let v := rollingVarLast 10 (rows.map (fun r => r.finalScoreNormalized.getD 0))
    if v < 1/25 ∧ base = .medium then .high
    else if v > 9/25 ∧ base = .high then .medium
    else base
  else base

/-- Python `%.3f` rendering of the score (used in the reasoning suffix).
Python rounds exact half-thousandths to even; `round` here rounds them up —
no theorem evaluates the formatter at such a tie. -/
def formatScore3 (q : ℚ) : String :=
  let m : ℤ := round (q * 1000)
  let sign := if m < 0 then "-" else ""
  let n := m.natAbs
  let frac := n % 1000
  let fracStr :=
    if frac < 10 then "00" ++ toString frac
    else if frac < 100 then "0" ++ toString frac
    else toString frac
  sign ++ toString (n / 1000) ++ "." ++ fracStr

/-- `_generate_reasoning` (lines 200-263). -/
def generateReasoning (rows : List ScoredRow) (score : ℚ) (rec : RecLabel) : String :=
  if rows.isEmpty then "Insufficient data for analysis"
  else
    let latest := rows.getLastD default
    let trendSig := latest.trendSignal.getD 0
    let momentumSig := latest.momentumSignal.getD 0
    let rsi := latest.rsi14.getD 50
    let volatilitySig := latest.volatilitySignal.getD 0
    let volumeSig := latest.volumeSignalCombined.getD 0
    let reasons : List String :=
      (if trendSig > 1/5 then ["Positive trend indicators (EMA/MACD bullish)"]
       else if trendSig < -(1/5) then ["Negative trend indicators (EMA/MACD bearish)"]
       else []) ++
      (if momentumSig > 1/5 then
        (if rsi < 30 then ["Oversold momentum with RSI recovery potential"]
          else ["Strong momentum indicators"])
       else if momentumSig < -(1/5) then
        (if rsi > 70 then ["Overbought momentum with RSI divergence risk"]
          else ["Weak momentum indicators"])
       else []) ++
      (if volatilitySig > 1/5 then ["Low volatility with potential breakout setup"]
       else if volatilitySig < -(1/5) then ["High volatility with elevated risk"]
       else []) ++
      (if volumeSig > 1/5 then ["Strong volume confirmation"]
       else if volumeSig < -(1/5) then ["Weak volume support"]
       else [])
    let core :=
      if rec = .strongBuy ∨ rec = .buy then
        "Bullish recommendation based on: " ++ String.intercalate "; "
          ((if reasons.isEmpty then
              ["Multiple technical indicators suggest bullish momentum"]
            else reasons).take 3)
      else if rec = .strongSell ∨ rec = .sell then
        "Bearish recommendation based on: " ++ String.intercalate "; "
          ((if reasons.isEmpty then
              ["Multiple technical indicators suggest bearish momentum"]
            else reasons).take 3)
      else
        "Neutral recommendation based on: " ++ String.intercalate "; "
          ((if reasons.isEmpty then
              ["Mixed technical signals with no clear direction"]
            else reasons).take 3)
    core ++ " (Score: " ++ formatScore3 score ++ ")"

/-- `_calculate_price_change` (lines 265-276). -/
def calculatePriceChange (rows : List ScoredRow) : ℚ :=
  if rows.length < 2 then 0
  else
    let currentPrice := (rows.getLastD default).close.getD 0
    let previousPrice := (rows.getD (rows.length - 2) default).close.getD 0
    if previousPrice = 0 then 0
    else (currentPrice - previousPrice) / previousPrice * 100

/-- The recommendation record, restricted to the semantically meaningful
fields (the company-name lookup, UTC timestamp, indicator echo fields and the
fundamental placeholder of the Python dict are presentation-only). -/
structure RecommendationData where
  symbol : String
  price : ℚ
  changePct : ℚ
  recommendation : RecLabel
  score : ℚ
  targetPrice : ℚ
  stopLoss : ℚ
  confidenceLevel : Confidence
  reasoning : String
deriving DecidableEq, Repr

/-- `RecommendationEngine._empty_recommendation` (lines 296-322). -/
def emptyRecommendation (ticker : String) : RecommendationData where
  symbol := ticker
  price := 0
  changePct := 0
  recommendation := .hold
  score := 0
  targetPrice := 0
  stopLoss := 0
  confidenceLevel := .low
  reasoning := "Insufficient data for analysis"

/-- `RecommendationEngine.generate_recommendations` (lines 44-120): an empty
dataframe or a non-positive latest close short-circuits to
`_empty_recommendation`; the surrounding `except` handler also returns the
placeholder on any internal error, so the function is total — which the
embedding reflects by construction. -/
def generateRecommendations (rows : List ScoredRow) (ticker : String) :
    RecommendationData :=
  match rows.getLast? with
  | none => emptyRecommendation ticker
  | some latest =>
    let currentPrice := latest.close.getD 0
    if currentPrice ≤ 0 then emptyRecommendation ticker
    else
      let finalScore := latest.finalScoreNormalized.getD 0
      let recommendation := scoreToRecommendation finalScore
      { symbol := ticker
        price := currentPrice
        changePct := calculatePriceChange rows
        recommendation := recommendation
        score := finalScore
        targetPrice := calculateTargetPrice currentPrice recommendation
        stopLoss := calculateStopLoss currentPrice recommendation
        confidenceLevel := calculateConfidence finalScore rows
        reasoning := generateReasoning rows finalScore recommendation }

end StockAnalyzer

namespace StockAnalyzer

/-! ## Claims C1, C2, C3 -/

/-- C1 (counterexample): the claim asserts the reward > risk invariant for
*every* positive current price, but `_calculate_target_price` and
`_calculate_stop_loss` round to whole cents, and at `current_price = 0.01`
with label Hold both the target (0.01 * 1.02 = 0.0102) and the stop
(0.01 * 0.985 = 0.00985) round back to 0.01, so
`|target − current| = |stop − current| = 0` and the strict inequality fails. -/
theorem c1_reward_risk_rounding_counterexample :
    0 < (1/100 : ℚ) ∧
    calculateTargetPrice (1/100) .hold = 1/100 ∧
    calculateStopLoss (1/100) .hold = 1/100 ∧
    ¬ (|calculateTargetPrice (1/100) .hold - 1/100| >
        |calculateStopLoss (1/100) .hold - 1/100|) := by
  refine ⟨by norm_num, ?_, ?_, ?_⟩ <;>
    simp [calculateTargetPrice, calculateStopLoss, round2, targetMultiplier,
      stopLossPercentage]
  · norm_num [round_eq]
  · norm_num [round_eq]
  · norm_num [round_eq]

/-- C1 (amended): for every recommendation label and every positive current
price, the *unrounded* target and stop-loss prices computed by
`RecommendationEngine` satisfy `|target − current| > |stop − current|`;
the invariant also holds for the rounded prices except where rounding to
whole cents collapses the sub-cent margin (as at price 0.01). -/
theorem c1_reward_exceeds_risk_unrounded (rec : RecLabel) (p : ℚ) (hp : 0 < p) :
    |targetPriceUnrounded p rec - p| > |stopLossUnrounded p rec - p| := by
  cases rec
  case strongBuy =>
    unfold targetPriceUnrounded stopLossUnrounded
    rw [if_pos (Or.inl rfl)]
    simp only [targetMultiplier, stopLossPercentage]
    rw [abs_of_pos (by linarith), abs_of_neg (by linarith)]
    linarith
  case buy =>
    unfold targetPriceUnrounded stopLossUnrounded
    rw [if_pos (Or.inr (Or.inl rfl))]
    simp only [targetMultiplier, stopLossPercentage]
    rw [abs_of_pos (by linarith), abs_of_neg (by linarith)]
    linarith
  case hold =>
    unfold targetPriceUnrounded stopLossUnrounded
    rw [if_pos (Or.inr (Or.inr rfl))]
    simp only [targetMultiplier, stopLossPercentage]
    rw [abs_of_pos (by linarith), abs_of_neg (by linarith)]
    linarith
  case sell =>
    unfold targetPriceUnrounded stopLossUnrounded
    rw [if_neg (by simp)]
    simp only [targetMultiplier, stopLossPercentage]
    rw [abs_of_neg (by linarith), abs_of_pos (by linarith)]
    linarith
  case strongSell =>
    unfold targetPriceUnrounded stopLossUnrounded
    rw [if_neg (by simp)]
    simp only [targetMultiplier, stopLossPercentage]
    rw [abs_of_neg (by linarith), abs_of_pos (by linarith)]
    linarith

/-- Witness for `c1_reward_exceeds_risk_unrounded` at label Hold and price 100. -/
theorem c1_reward_exceeds_risk_unrounded_witness :
    0 < (100 : ℚ) ∧
    |targetPriceUnrounded 100 .hold - 100| > |stopLossUnrounded 100 .hold - 100| :=
  ⟨by norm_num, c1_reward_exceeds_risk_unrounded .hold 100 (by norm_num)⟩

/-- C2: `_score_to_recommendation` is determined by inclusive lower bounds:
score ≥ 0.5 gives Strong Buy, 0.2 ≤ score < 0.5 gives Buy, −0.2 ≤ score < 0.2
gives Hold, −0.5 ≤ score < −0.2 gives Sell, and score < −0.5 gives Strong Sell. -/
theorem c2_score_threshold_characterization (score : ℚ) :
    (scoreToRecommendation score = .strongBuy ↔ 1/2 ≤ score) ∧
    (scoreToRecommendation score = .buy ↔ 1/5 ≤ score ∧ score < 1/2) ∧
    (scoreToRecommendation score = .hold ↔ -(1/5) ≤ score ∧ score < 1/5) ∧
    (scoreToRecommendation score = .sell ↔ -(1/2) ≤ score ∧ score < -(1/5)) ∧
    (scoreToRecommendation score = .strongSell ↔ score < -(1/2)) := by
  unfold scoreToRecommendation threshold_strong_buy threshold_buy threshold_hold
    threshold_sell
  split_ifs with h1 h2 h3 h4 <;>
    refine ⟨?_, ?_, ?_, ?_, ?_⟩ <;>
    constructor <;>
    intro h <;>
    simp_all <;>
    linarith

/-- C3: each of the four per-category weight tables of `SignalEngine` and the
top-level category weight table sums to 1 within 1e-6 (in fact exactly). -/
theorem c3_weight_sets_sum_to_one :
    |weightSum trend_weights - 1| ≤ 1/1000000 ∧
    |weightSum momentum_weights - 1| ≤ 1/1000000 ∧
    |weightSum volatility_weights - 1| ≤ 1/1000000 ∧
    |weightSum volume_weights - 1| ≤ 1/1000000 ∧
    |weightSum indicator_weights - 1| ≤ 1/1000000 := by
  refine ⟨?_, ?_, ?_, ?_, ?_⟩ <;>
    norm_num [weightSum, trend_weights, momentum_weights, volatility_weights,
      volume_weights, indicator_weights]

/-! ## Claims C4, C5, C9 -/

theorem dictInsert_of_not_mem {α : Type} (k : String) (v : α)
    (l : List (String × α)) (h : k ∉ l.map Prod.fst) :
    dictInsert k v l = l ++ [(k, v)] := by
  induction l with
  | nil => rfl
  | cons hd tl ih =>
    simp only [List.map_cons, List.mem_cons] at h
    push_neg at h
    rw [dictInsert, if_neg (fun he => h.1 he.symm), ih h.2]
    rfl

theorem foldl_dictInsert_eq {α : Type} (f : String → α) :
    ∀ (l : List String) (acc : List (String × α)),
      l.Nodup → (∀ s ∈ l, s ∉ acc.map Prod.fst) →
      l.foldl (fun r s => dictInsert s (f s) r) acc =
        acc ++ l.map (fun s => (s, f s)) := by
  intro l
  induction l with
  | nil => intro acc _ _; simp
  | cons hd tl ih =>
    intro acc hnd hfresh
    rw [List.foldl_cons, dictInsert_of_not_mem hd (f hd) acc
      (hfresh hd (List.mem_cons_self hd tl))]
    rw [ih (acc ++ [(hd, f hd)]) (List.Nodup.of_cons hnd) ?_]
    · simp
    · intro s hs
      simp only [List.map_append, List.mem_append]
      push_neg
      refine ⟨hfresh s (List.mem_cons_of_mem hd hs), ?_⟩
      simp only [List.map_cons, List.map_nil, List.mem_singleton]
      exact fun he => (List.nodup_cons.mp hnd).1 (he ▸ hs)

theorem analyzeAll_eq_map {α : Type} (symbols : List String)
    (fetchOk : String → Bool) (analyzeSym : String → Option (AnalysisEntry α))
    (h : (normalizeSymbols symbols).Nodup) :
    analyzeAll symbols fetchOk analyzeSym =
      (normalizeSymbols symbols).map
        (fun s => (s, expectedEntry fetchOk analyzeSym s)) := by
  have hstep :
      (fun (results : List (String × AnalysisEntry α)) symbol =>
        if fetchOk symbol then
          match analyzeSym symbol with
          | some analysis => dictInsert symbol analysis results
          | none => dictInsert symbol (.err "Analysis failed") results
        else dictInsert symbol (.err "Data fetch failed") results) =
      fun results symbol =>
        dictInsert symbol (expectedEntry fetchOk analyzeSym symbol) results := by
    funext r s
    unfold expectedEntry
    by_cases hf : fetchOk s
    · simp only [if_pos hf]
      cases analyzeSym s <;> rfl
    · simp only [if_neg hf]
  unfold analyzeAll
  rw [hstep]
  simpa using foldl_dictInsert_eq (expectedEntry fetchOk analyzeSym)
    (normalizeSymbols symbols) [] h (by simp)

theorem lookup_map_self {α : Type} (g : String → α) :
    ∀ (l : List String) (s : String), s ∈ l →
      (l.map (fun t => (t, g t))).lookup s = some (g s) := by
  intro l
  induction l with
  | nil => intro s hs; cases hs
  | cons hd tl ih =>
    intro s hs
    by_cases he : s = hd
    · subst he
      simp [List.lookup]
    · rcases List.mem_cons.mp hs with h1 | h2
      · exact absurd h1 he
      · simpa [List.lookup, beq_false_of_ne he] using ih s h2

/-- C4 (counterexample): the claim promises exactly one output entry per input
symbol, but `analyze_all` keys its results by normalized symbol in a Python
dict, so the 2-symbol input list `["AAPL", "AAPL"]` produces a single entry. -/
theorem c4_duplicate_symbols_counterexample :
    (["AAPL", "AAPL"] : List String).length = 2 ∧
    analyzeAll (α := Unit) ["AAPL", "AAPL"] (fun _ => false) (fun _ => none) =
      [("AAPL", .err "Data fetch failed")] := by
  exact ⟨rfl, by decide⟩

/-- C4 (amended): for every input list whose symbols normalize (uppercase,
strip, drop whitespace-only entries) to *distinct* names, `analyze_all`
returns exactly one entry per normalized input symbol — a typed error entry
for every symbol whose fetch or analysis failed and a valid result for the
others — and the number of typed error entries equals the number of failing
symbols.  Duplicate inputs collapse to a single dict entry and
whitespace-only inputs are dropped, so the per-input-symbol count holds only
after normalization. -/
theorem c4_one_entry_per_distinct_symbol {α : Type} (symbols : List String)
    (fetchOk : String → Bool) (analyzeSym : String → Option (AnalysisEntry α))
    (h : (normalizeSymbols symbols).Nodup) :
    (analyzeAll symbols fetchOk analyzeSym).length =
      (normalizeSymbols symbols).length ∧
    (∀ s ∈ normalizeSymbols symbols,
      (analyzeAll symbols fetchOk analyzeSym).lookup s =
        some (expectedEntry fetchOk analyzeSym s)) ∧
    ((analyzeAll symbols fetchOk analyzeSym).filter
        (fun e => isErrEntry e.2)).length =
      ((normalizeSymbols symbols).filter
        (fun s => isErrEntry (expectedEntry fetchOk analyzeSym s))).length := by
  rw [analyzeAll_eq_map symbols fetchOk analyzeSym h]
  refine ⟨by simp, ?_, ?_⟩
  · intro s hs
    exact lookup_map_self (expectedEntry fetchOk analyzeSym)
      (normalizeSymbols symbols) s hs
  · rw [List.filter_map, List.length_map]
    rfl

/-- Witness for `c4_one_entry_per_distinct_symbol`: two distinct symbols, one
failing its fetch and one succeeding. -/
theorem c4_one_entry_per_distinct_symbol_witness :
    (normalizeSymbols ["AAPL", "MSFT"]).Nodup ∧
    (analyzeAll (α := Unit) ["AAPL", "MSFT"] (fun s => s == "MSFT")
        (fun s => if s == "MSFT" then some (.ok ()) else none)).length =
      (normalizeSymbols ["AAPL", "MSFT"]).length := by
  have hnd : (normalizeSymbols ["AAPL", "MSFT"]).Nodup := by
    have h : normalizeSymbols ["AAPL", "MSFT"] = ["AAPL", "MSFT"] := by decide
    rw [h]
    simp
  exact ⟨hnd, (c4_one_entry_per_distinct_symbol ["AAPL", "MSFT"] _ _ hnd).1⟩

/-- C5 (counterexample): the claim says that after the provider rate-limits
the same batch through the whole retry ceiling, the individual-download
fallback runs exactly once per symbol of the batch; in the code the
rate-limit path never reaches `_fallback_individual_downloads` — it marks
every symbol of the batch failed, and the list of individually downloaded
symbols stays empty. -/
theorem c5_rate_limit_no_fallback_counterexample :
    fetchSingleBatch (fun _ => .rateLimited) (fun _ => true) ["AAPL", "MSFT"] 0 0 =
      ([("AAPL", false), ("MSFT", false)], []) ∧
    (fetchSingleBatch (fun _ => .rateLimited) (fun _ => true)
        ["AAPL", "MSFT"] 0 0).2 ≠ ["AAPL", "MSFT"] := by
  have hval : fetchSingleBatch (fun _ => .rateLimited) (fun _ => true)
      ["AAPL", "MSFT"] 0 0 = ([("AAPL", false), ("MSFT", false)], []) := by
    simp [fetchSingleBatch, max_retries]
  exact ⟨hval, by rw [hval]; simp⟩

/-- C5 (amended): when the provider answers every attempt for a batch with a
rate-limit error, `_fetch_single_batch` retries up to the ceiling of 3 and
then marks every symbol in the batch failed; the individual-download fallback
is never invoked on the rate-limit path (it is reached only on
authentication errors). -/
theorem c5_rate_limit_marks_failed_no_fallback (symbols : List String)
    (indiv : String → Bool) (attempt : ℕ → BatchOutcome)
    (h : ∀ k, attempt k = .rateLimited) :
    fetchSingleBatch attempt indiv symbols 0 0 =
      (symbols.map (fun s => (s, false)), []) := by
  simp [fetchSingleBatch, h, max_retries]

/-- Witness for `c5_rate_limit_marks_failed_no_fallback` on a singleton batch. -/
theorem c5_rate_limit_marks_failed_no_fallback_witness :
    fetchSingleBatch (fun _ => .rateLimited) (fun _ => true) ["AAPL"] 0 0 =
      ([("AAPL", false)], []) :=
  c5_rate_limit_marks_failed_no_fallback ["AAPL"] (fun _ => true)
    (fun _ => .rateLimited) (fun _ => rfl)

/-- C9 (counterexample): the claim says an entry is stale as soon as
`now − fetched_at` exceeds the 1-day TTL, but `_get_from_cache` compares
`timedelta.days` — the *floored* whole-day age — with the TTL, so an entry
1.5 days old (129600 s, strictly beyond the TTL) is still served as a hit. -/
theorem c9_ttl_floor_counterexample :
    (129600 : ℚ) / 86400 > 1 ∧
    getFromCache (some ⟨[⟨1, 2, 1, 2, 10⟩], 129600⟩) = some [⟨1, 2, 1, 2, 10⟩] := by
  constructor
  · norm_num
  · rfl

/-- C9 (amended): for an existing cache entry that passes validation, the
lookup is a hit exactly while the entry's age is under 2 whole days
(floored day count ≤ the 1-day TTL); from 2 days on it is ignored and the
lookup behaves as a miss. -/
theorem c9_cache_hit_iff_age_below_two_days (o : CacheObject)
    (hv : validateCachedData o.rows = true) :
    (getFromCache (some o) = some o.rows ↔ o.ageSeconds < 2 * 86400) := by
  have hiff : (ageDays o.ageSeconds > cache_ttl_days) ↔ ¬ o.ageSeconds < 2 * 86400 := by
    unfold ageDays cache_ttl_days
    omega
  simp only [getFromCache, hv, if_true]
  split_ifs with h1
  · rw [hiff] at h1
    simp [h1]
  · rw [hiff] at h1
    push_neg at h1
    simp [h1]

/-- Witness for `c9_cache_hit_iff_age_below_two_days` at age exactly 1 day. -/
theorem c9_cache_hit_iff_age_below_two_days_witness :
    validateCachedData [⟨1, 2, 1, 2, 10⟩] = true ∧
    (getFromCache (some ⟨[⟨1, 2, 1, 2, 10⟩], 86400⟩) = some [⟨1, 2, 1, 2, 10⟩] ↔
      86400 < 2 * 86400) :=
  ⟨by decide, c9_cache_hit_iff_age_below_two_days ⟨[⟨1, 2, 1, 2, 10⟩], 86400⟩ (by decide)⟩

/-! ## Claims C6, C8, C10 -/

/-- C6: whenever the input series is shorter than an indicator's window
requirement, `_calculate_indicators` stores that indicator as `None` (absent),
never as 0 or a fabricated default: MACD family below 26 rows, SMA_20 and the
Bollinger average below 20, SMA_50 below 50, SMA_200 below 200, EMA_12 below
12, EMA_26 below 26, and RSI below 15 rows (14 differences).  (The backend
`IndicatorEngine.compute_all_indicators` behaves the same way: below 50 rows
it returns the dataframe without any indicator columns.) -/
theorem c6_short_series_indicators_absent (closes : List ℚ) :
    (closes.length < 26 → (calcIndicators closes).macd = none ∧
      (calcIndicators closes).macdSignal = none ∧
      (calcIndicators closes).macdHistogram = none) ∧
    (closes.length < 20 → (calcIndicators closes).sma20 = none) ∧
    (closes.length < 50 → (calcIndicators closes).sma50 = none) ∧
    (closes.length < 200 → (calcIndicators closes).sma200 = none) ∧
    (closes.length < 12 → (calcIndicators closes).ema12 = none) ∧
    (closes.length < 26 → (calcIndicators closes).ema26 = none) ∧
    (closes.length < 15 → (calcIndicators closes).rsi = none) ∧
    (closes.length < 20 → (calcIndicators closes).bbMiddle = none) := by
  unfold calcIndicators
  refine ⟨fun h => ⟨?_, ?_, ?_⟩, fun h => ?_, fun h => ?_, fun h => ?_, fun h => ?_,
    fun h => ?_, fun h => ?_, fun h => ?_⟩ <;>
    simp only [rsiLast] <;>
    rw [if_neg (by omega)]

/-- Witness for `c6_short_series_indicators_absent` on a 10-row series. -/
theorem c6_short_series_indicators_absent_witness :
    (calcIndicators [1, 2, 3, 4, 5, 6, 7, 8, 9, 10]).macd = none ∧
    (calcIndicators [1, 2, 3, 4, 5, 6, 7, 8, 9, 10]).sma20 = none ∧
    (calcIndicators [1, 2, 3, 4, 5, 6, 7, 8, 9, 10]).sma50 = none ∧
    (calcIndicators [1, 2, 3, 4, 5, 6, 7, 8, 9, 10]).sma200 = none ∧
    (calcIndicators [1, 2, 3, 4, 5, 6, 7, 8, 9, 10]).ema12 = none ∧
    (calcIndicators [1, 2, 3, 4, 5, 6, 7, 8, 9, 10]).ema26 = none ∧
    (calcIndicators [1, 2, 3, 4, 5, 6, 7, 8, 9, 10]).rsi = none ∧
    (calcIndicators [1, 2, 3, 4, 5, 6, 7, 8, 9, 10]).bbMiddle = none := by
  have h := c6_short_series_indicators_absent [1, 2, 3, 4, 5, 6, 7, 8, 9, 10]
  exact ⟨(h.1 (by decide)).1, h.2.1 (by decide), h.2.2.1 (by decide),
    h.2.2.2.1 (by decide), h.2.2.2.2.1 (by decide), h.2.2.2.2.2.1 (by decide),
    h.2.2.2.2.2.2.1 (by decide), h.2.2.2.2.2.2.2 (by decide)⟩

/-- C8: for 50–252 rows the 1-year price change equals the percentage change
from the earliest available close to the latest, scaled by
`252 / available_length`; from 253 rows on it is the exact percentage change
`(new − old)/old · 100` over the last 252 trading days. -/
theorem c8_one_year_change_matches_spec (closes : List ℚ)
    (h : 50 ≤ closes.length) :
    priceChange1y closes = spec_oneYearChange closes := by
  unfold priceChange1y spec_oneYearChange spec_pctChange
  split_ifs with h253
  · rfl
  · rfl

/-- Witness for `c8_one_year_change_matches_spec` on a 50-row series. -/
theorem c8_one_year_change_matches_spec_witness :
    50 ≤ ((List.range 50).map (fun t : ℕ => (100 + t : ℚ))).length ∧
    priceChange1y ((List.range 50).map (fun t : ℕ => (100 + t : ℚ))) =
      spec_oneYearChange ((List.range 50).map (fun t : ℕ => (100 + t : ℚ))) :=
  ⟨by rw [List.length_map, List.length_range],
    c8_one_year_change_matches_spec _ (by rw [List.length_map, List.length_range])⟩

/-- C10: `generate_recommendations` is total (any internal error is caught and
converted), and on an empty dataframe or a non-positive latest close it
returns the fixed placeholder: label Hold, score 0, price 0, target price 0,
stop loss 0, confidence Low, reasoning "Insufficient data for analysis" —
the symbol is neither dropped nor surfaced as a typed error. -/
theorem c10_empty_recommendation_placeholder (ticker : String)
    (rows : List ScoredRow)
    (h : rows = [] ∨ ∃ latest, rows.getLast? = some latest ∧ latest.close.getD 0 ≤ 0) :
    generateRecommendations rows ticker = emptyRecommendation ticker ∧
    (emptyRecommendation ticker).recommendation = .hold ∧
    (emptyRecommendation ticker).score = 0 ∧
    (emptyRecommendation ticker).price = 0 ∧
    (emptyRecommendation ticker).targetPrice = 0 ∧
    (emptyRecommendation ticker).stopLoss = 0 ∧
    (emptyRecommendation ticker).confidenceLevel = .low ∧
    (emptyRecommendation ticker).reasoning = "Insufficient data for analysis" := by
  refine ⟨?_, rfl, rfl, rfl, rfl, rfl, rfl, rfl⟩
  rcases h with he | ⟨latest, hlast, hle⟩
  · subst he
    rfl
  · unfold generateRecommendations
    rw [hlast]
    simp only [if_pos hle]

/-- Witness for `c10_empty_recommendation_placeholder` on the empty dataframe. -/
theorem c10_empty_recommendation_placeholder_witness :
    generateRecommendations [] "AAPL" = emptyRecommendation "AAPL" ∧
    (emptyRecommendation "AAPL").recommendation = .hold ∧
    (emptyRecommendation "AAPL").score = 0 ∧
    (emptyRecommendation "AAPL").price = 0 ∧
    (emptyRecommendation "AAPL").targetPrice = 0 ∧
    (emptyRecommendation "AAPL").stopLoss = 0 ∧
    (emptyRecommendation "AAPL").confidenceLevel = .low ∧
    (emptyRecommendation "AAPL").reasoning = "Insufficient data for analysis" :=
  c10_empty_recommendation_placeholder "AAPL" [] (Or.inl rfl)

/-! ## Claim C7: helper lemmas
Wilder/exponential smoothing of a constant column is constant; these lemmas
let the deep 260-step smoothing chains of the example series be settled
symbolically (their direct kernel evaluation is out of reach). -/

theorem ewmScan_replicate (a c : ℚ) :
    ∀ (n : ℕ) (prev : ℚ), prev = c →
      ewmScan a prev (List.replicate n c) = List.replicate n c := by
  intro n
  induction n with
  | zero => intro prev h; rfl
  | succ m ih =>
    intro prev h
    rw [h, List.replicate_succ]
    simp only [ewmScan]
    have he : a * c + (1 - a) * c = c := by ring
    rw [he, ih c rfl]

theorem ewmSeries_replicate (a c : ℚ) (n : ℕ) :
    ewmSeries a (List.replicate n c) = List.replicate n c := by
  cases n with
  | zero => rfl
  | succ m =>
    rw [List.replicate_succ]
    simp only [ewmSeries]
    rw [ewmScan_replicate a c m c rfl]

theorem getLastD_replicate_succ {α : Type} (c : α) :
    ∀ (n : ℕ) (d : α), (List.replicate (n + 1) c).getLastD d = c := by
  intro n
  induction n with
  | zero => intro d; rfl
  | succ m ih =>
    intro d
    rw [List.replicate_succ, List.getLastD_cons]
    exact ih c

theorem getLastD_replicate {α : Type} (c d : α) (n : ℕ) (h : n ≠ 0) :
    (List.replicate n c).getLastD d = c := by
  cases n with
  | zero => exact absurd rfl h
  | succ m => exact getLastD_replicate_succ c m d

theorem zipWith_replicate_both {α β γ : Type} (f : α → β → γ) (a : α) (b : β) :
    ∀ n, List.zipWith f (List.replicate n a) (List.replicate n b) =
      List.replicate n (f a b) := by
  intro n
  induction n with
  | zero => rfl
  | succ m ih =>
    simp only [List.replicate_succ, List.zipWith_cons_cons]
    rw [ih]

theorem zipWith3_replicate {α β γ δ : Type} (f : α → β → γ → δ)
    (a : α) (b : β) (c : γ) :
    ∀ n, List.zipWith3 f (List.replicate n a) (List.replicate n b)
      (List.replicate n c) = List.replicate n (f a b c) := by
  intro n
  induction n with
  | zero => rfl
  | succ m ih =>
    simp only [List.replicate_succ, List.zipWith3]
    rw [ih]

theorem drop_replicate {α : Type} (c : α) (k n : ℕ) :
    List.drop k (List.replicate n c) = List.replicate (n - k) c := by
  induction k generalizing n with
  | zero => simp
  | succ j ih =>
    cases n with
    | zero => simp
    | succ m =>
      rw [List.replicate_succ, List.drop_succ_cons, ih m]
      congr 1
      omega

theorem strictlyIncreasing_iff_chain :
    ∀ xs : List ℚ, strictlyIncreasing xs = true ↔ xs.Chain' (· < ·)
  | [] => by simp [strictlyIncreasing]
  | [x] => by simp [strictlyIncreasing]
  | x :: y :: rest => by
    have ih := strictlyIncreasing_iff_chain (y :: rest)
    simp only [strictlyIncreasing, List.drop_succ_cons, List.drop_zero,
      List.zip_cons_cons, List.all_cons, Bool.and_eq_true,
      decide_eq_true_eq, List.chain'_cons] at ih ⊢
    exact and_congr Iff.rfl ih

/-- Differences of the example closes: +1 every day. -/
theorem c7Bars_diffs : diffs (closesOf c7Bars) = List.replicate 259 1 := by
  with_unfolding_all decide

/-- True ranges of the example series are constantly 1. -/
theorem c7Bars_tr :
    trSeries (highsOf c7Bars) (lowsOf c7Bars) (closesOf c7Bars) =
      List.replicate 259 1 := by
  with_unfolding_all decide

theorem c7Bars_posDM :
    posDMSeries (highsOf c7Bars) (lowsOf c7Bars) = List.replicate 259 1 := by
  with_unfolding_all decide

theorem c7Bars_negDM :
    negDMSeries (highsOf c7Bars) (lowsOf c7Bars) = List.replicate 259 0 := by
  with_unfolding_all decide

/-- Every RSI value of the example series is 100 (all gains, no losses). -/
theorem c7Bars_rsiValues :
    rsiValues (closesOf c7Bars) = List.replicate 259 (some 100) := by
  simp only [rsiValues]
  rw [c7Bars_diffs, List.map_replicate, List.map_replicate]
  rw [show ratMax (1 : ℚ) 0 = 1 from by with_unfolding_all decide,
    show ratMax (-(1 : ℚ)) 0 = 0 from by with_unfolding_all decide]
  rw [ewmSeries_replicate, ewmSeries_replicate, zipWith_replicate_both]
  congr 1

theorem c7Bars_rsiLast : rsiLast (closesOf c7Bars) = some 100 := by
  unfold rsiLast
  rw [if_pos (by with_unfolding_all decide), c7Bars_rsiValues]
  exact getLastD_replicate (some 100) none 259 (by omega)

/-- The stochastic-RSI column is NaN at the last row: the last 14 RSI values
are all 100, so the min-max range is 0. -/
theorem c7Bars_stochKLast : stochKLast (closesOf c7Bars) = none := by
  unfold stochKLast stochKLast.lastN14Opt
  rw [c7Bars_rsiValues, List.length_replicate, drop_replicate]
  with_unfolding_all decide

theorem c7Bars_adxLast :
    adxLast (highsOf c7Bars) (lowsOf c7Bars) (closesOf c7Bars) = 100 := by
  simp only [adxLast]
  rw [c7Bars_tr, c7Bars_posDM, c7Bars_negDM, ewmSeries_replicate,
    ewmSeries_replicate, zipWith3_replicate, ewmSeries_replicate,
    getLastD_replicate _ _ 259 (by omega)]
  with_unfolding_all decide

theorem c7Bars_rsiSignal : rsiSignalLast c7Bars = -1 := by
  unfold rsiSignalLast
  rw [c7Bars_rsiLast]
  norm_num

theorem c7Bars_stochSignal : stochSignalLast c7Bars = 0 := by
  unfold stochSignalLast
  rw [c7Bars_stochKLast]

theorem c7Bars_rocSignal : rocSignalLast c7Bars = 0 := by
  with_unfolding_all decide

theorem c7Bars_momentum : momentumSignalLast c7Bars = -(2/5) := by
  unfold momentumSignalLast
  rw [c7Bars_rsiSignal, c7Bars_stochSignal, c7Bars_rocSignal]
  with_unfolding_all decide

theorem c7Bars_bbSignal : bbSignalLast c7Bars = -1 := by
  with_unfolding_all decide

theorem c7Bars_atrSignal : atrSignalLast c7Bars = 0 := by
  simp only [atrSignalLast, atrSeries, c7Bars_tr, ewmSeries_replicate]
  with_unfolding_all decide

theorem c7Bars_volatility : volatilitySignalLast c7Bars = -(1/2) := by
  unfold volatilitySignalLast
  rw [c7Bars_bbSignal, c7Bars_atrSignal]
  with_unfolding_all decide

theorem c7Bars_obvSignal : obvSignalLast c7Bars = 1 := by
  with_unfolding_all decide

theorem c7Bars_volumeRatioSignal : volumeRatioSignalLast c7Bars = 0 := by
  with_unfolding_all decide

theorem c7Bars_pvtSignal : pvtSignalLast c7Bars = 1 := by
  with_unfolding_all decide

theorem c7Bars_volumeCombined : volumeSignalCombinedLast c7Bars = 7/10 := by
  unfold volumeSignalCombinedLast
  rw [c7Bars_obvSignal, c7Bars_volumeRatioSignal, c7Bars_pvtSignal]
  with_unfolding_all decide

theorem c7Bars_smaSignal : smaSignalLast c7Bars = 1 := by
  with_unfolding_all decide

theorem c7Bars_adxStrength : adxStrengthLast c7Bars = 1 := by
  unfold adxStrengthLast
  rw [c7Bars_adxLast]
  norm_num

/-- The EMA and MACD cross signals are ±1 by construction; their exact branch
is not settled here (the 260-step EMA chains exceed kernel evaluation), and
the final-score bounds below hold for either branch. -/
theorem c7Bars_emaSignal_cases :
    emaSignalLast c7Bars = 1 ∨ emaSignalLast c7Bars = -1 := by
  unfold emaSignalLast
  split_ifs <;> simp

theorem c7Bars_macdSignal_cases :
    macdCrossSignalLast c7Bars = 1 ∨ macdCrossSignalLast c7Bars = -1 := by
  unfold macdCrossSignalLast
  split_ifs <;> simp

theorem c7Bars_trend_bounds :
    0 ≤ trendSignalLast c7Bars ∧ trendSignalLast c7Bars ≤ 1 := by
  unfold trendSignalLast
  rw [c7Bars_smaSignal, c7Bars_adxStrength,
    show weightOf trend_weights "EMA_Cross" = 3/10 from by with_unfolding_all decide,
    show weightOf trend_weights "SMA_Cross" = 3/10 from by with_unfolding_all decide,
    show weightOf trend_weights "MACD_Cross" = 1/5 from by with_unfolding_all decide,
    show weightOf trend_weights "ADX_Strength" = 1/5 from by with_unfolding_all decide]
  rcases c7Bars_emaSignal_cases with h | h <;>
    rcases c7Bars_macdSignal_cases with h2 | h2 <;>
    rw [h, h2] <;> norm_num

theorem c7Bars_final_bounds :
    -(3/20) ≤ finalScoreLast c7Bars ∧ finalScoreLast c7Bars ≤ 1/4 := by
  unfold finalScoreLast
  rw [c7Bars_momentum, c7Bars_volatility, c7Bars_volumeCombined,
    show weightOf indicator_weights "trend" = 2/5 from by with_unfolding_all decide,
    show weightOf indicator_weights "momentum" = 3/10 from by with_unfolding_all decide,
    show weightOf indicator_weights "volatility" = 1/5 from by with_unfolding_all decide,
    show weightOf indicator_weights "volume" = 1/10 from by with_unfolding_all decide]
  obtain ⟨h0, h1⟩ := c7Bars_trend_bounds
  constructor <;> nlinarith

theorem c7Bars_final_normalized_bounds :
    -(3/20) ≤ finalScoreNormalizedLast c7Bars ∧
      finalScoreNormalizedLast c7Bars ≤ 1/4 := by
  obtain ⟨h0, h1⟩ := c7Bars_final_bounds
  unfold finalScoreNormalizedLast
  split_ifs with ha hb
  · exfalso; linarith
  · exfalso; linarith
  · exact ⟨h0, h1⟩

theorem c7Bars_label :
    scoreToRecommendation (finalScoreNormalizedLast c7Bars) = .buy ∨
      scoreToRecommendation (finalScoreNormalizedLast c7Bars) = .hold := by
  obtain ⟨h0, h1⟩ := c7Bars_final_normalized_bounds
  unfold scoreToRecommendation threshold_strong_buy threshold_buy
    threshold_hold threshold_sell
  split_ifs with hsb hb hh
  · exfalso; linarith
  · exact Or.inl rfl
  · exact Or.inr rfl
  · exfalso; linarith
  · exfalso; linarith

/-! ## Claim C7 -/

/-- C7 (counterexample): the 260-bar series with closes 100, 101, …, 359
(strictly increasing every day) runs through the pipeline with an oscillator
reading of 100 (RSI of an all-gain series), yet the final score does not
exceed 0.5 and the label is not Strong Buy: the RSI > 70 momentum signal is
−1 (overbought), the stochastic-RSI column is NaN, the close sits at the top
of the Bollinger band (−1), so the final score is at most 0.25 for every
branch of the remaining trend comparisons. -/
theorem c7_strictly_increasing_counterexample :
    c7Bars.length = 260 ∧
    (closesOf c7Bars).Chain' (· < ·) ∧
    rsiLast (closesOf c7Bars) = some 100 ∧
    ¬ (finalScoreNormalizedLast c7Bars > 1/2 ∧
        scoreToRecommendation (finalScoreNormalizedLast c7Bars) = .strongBuy) := by
  refine ⟨by decide, ?_, c7Bars_rsiLast, ?_⟩
  · rw [← strictlyIncreasing_iff_chain]
    with_unfolding_all decide
  · rintro ⟨hgt, _⟩
    have h := c7Bars_final_normalized_bounds.2
    linarith

/-- C7 (amended): on the strictly increasing 260-bar example series, the
pipeline yields an oscillator reading of 100 (> 70) and positive golden-cross
and trend-strength components, but the overbought momentum category (−0.4)
and the top-of-band volatility category (−0.5) cap the final score at 0.25 —
below the 0.5 Strong Buy threshold — so the label is Buy or Hold; for either
of those buy-side labels the target price is above and the stop-loss below
the current price. -/
theorem c7_strictly_increasing_example_corrected :
    c7Bars.length = 260 ∧
    (closesOf c7Bars).Chain' (· < ·) ∧
    rsiLast (closesOf c7Bars) = some 100 ∧
    momentumSignalLast c7Bars = -(2/5) ∧
    volatilitySignalLast c7Bars = -(1/2) ∧
    smaSignalLast c7Bars = 1 ∧
    adxStrengthLast c7Bars = 1 ∧
    finalScoreNormalizedLast c7Bars ≤ 1/4 ∧
    (scoreToRecommendation (finalScoreNormalizedLast c7Bars) = .buy ∨
      scoreToRecommendation (finalScoreNormalizedLast c7Bars) = .hold) ∧
    (closesOf c7Bars).getLastD 0 <
      calculateTargetPrice ((closesOf c7Bars).getLastD 0)
        (scoreToRecommendation (finalScoreNormalizedLast c7Bars)) ∧
    calculateStopLoss ((closesOf c7Bars).getLastD 0)
        (scoreToRecommendation (finalScoreNormalizedLast c7Bars)) <
      (closesOf c7Bars).getLastD 0 := by
  have hlast : (closesOf c7Bars).getLastD 0 = 359 := by
    with_unfolding_all decide
  refine ⟨by decide, ?_, c7Bars_rsiLast, c7Bars_momentum, c7Bars_volatility,
    c7Bars_smaSignal, c7Bars_adxStrength, c7Bars_final_normalized_bounds.2,
    c7Bars_label, ?_, ?_⟩
  · rw [← strictlyIncreasing_iff_chain]
    with_unfolding_all decide
  · rcases c7Bars_label with h | h <;> rw [hlast, h] <;>
      norm_num [calculateTargetPrice, round2, targetMultiplier, round_eq]
  · rcases c7Bars_label with h | h <;> rw [hlast, h] <;>
      norm_num [calculateStopLoss, round2, stopLossPercentage, round_eq]

end StockAnalyzer
